import Mathlib

/-!
Shallow embedding of the game-state and problem-generation core of the
Grade 1 Math Practice app.

Sources embedded here:
* `src/gameState.js` — game state record and its pure transition helpers,
  plus the utility section (`formatTime`).
* `src/problemGenerator.js` — the problem generators
  (`generateAdditionProblem`, `generateSubtractionProblem`,
  `generateThreeNumberProblem`, `generateCountingProblem`,
  `generateProblemByMode`, `updateCurrentProblem`).
* `script.js` — the configured `difficultySettings` table and the
  state-transition parts of the event handlers (`startGame`,
  `handleIncorrectAnswer`, `updateTimer`/`endGame`,
  `handleOperationButtonClick`, `handleDifficultyButtonClick`) with the
  DOM-rendering statements stripped; also the inline three-number
  builder inside `newProblem`.

Randomness model: every `getRandomNumber(min, max)` call site (and the
`Math.random()` draw in mixed dispatch) is replaced by an explicit input
value.  The contract of `getRandomNumber` — the result lies in
`[min, max]` whenever `min ≤ max`, otherwise the call throws — appears
as the `RandSpec` hypotheses on those inputs.  JS numbers that are
always integers in this code are modelled as `ℤ`; absent configuration
entries are modelled as `Option.none` (a generator that would throw is
modelled as returning `none`).
-/

namespace MathApp

/-- Contract of `getRandomNumber` in `utils.js`: whenever the requested
range is nonempty the drawn value `x` lies inside it (the call throws
on an empty range, so nothing is promised there). -/
def RandSpec (lo hi x : ℤ) : Prop := lo ≤ hi → lo ≤ x ∧ x ≤ hi

/-- `formatTime` from the utility section of `src/gameState.js`
(`utils.js`): negative input renders as `"0:00"`, otherwise
`minutes = floor(seconds / 60)` unpadded, `":"`, and the remaining
seconds padded to two digits. -/
def formatTime (seconds : ℤ) : String :=
  if seconds < 0 then "0:00"
  else
    let n := seconds.toNat
    let minutes := n / 60
    let remainingSeconds := n % 60
    Nat.repr minutes ++ ":" ++
      (if remainingSeconds < 10 then "0" else "") ++ Nat.repr remainingSeconds

/-- The two-digit seconds field of `formatTime`, named for use in
statements about the rendered `M:SS` shape. -/
def secondsField (r : ℕ) : String :=
  (if r < 10 then "0" else "") ++ Nat.repr r

/-- Numeric ranges for a two-operand generator entry of
`difficultySettings` in `script.js`. -/
structure TwoRange where
  min1 : ℤ
  max1 : ℤ
  min2 : ℤ
  max2 : ℤ
deriving DecidableEq

/-- Numeric ranges for a `threeNumber` entry of `difficultySettings`. -/
structure ThreeRange where
  min1 : ℤ
  max1 : ℤ
  min2 : ℤ
  max2 : ℤ
  min3 : ℤ
  max3 : ℤ
deriving DecidableEq

/-- Numeric range for a `counting` entry of `difficultySettings`. -/
structure CountRange where
  min : ℤ
  max : ℤ
deriving DecidableEq

/-- The `difficultySettings` configuration object shape.  Lookups are
`Option`-valued because a difficulty key (or the whole `threeNumber`
table, which `generateThreeNumberProblem` checks for separately) may be
absent from a settings object. -/
structure DifficultySettings where
  addition : String → Option TwoRange
  subtraction : String → Option TwoRange
  threeNumber : Option (String → Option ThreeRange)
  mixed : String → Option TwoRange
  counting : String → Option CountRange

/-- The configured `difficultySettings` table from `script.js`. -/
def difficultySettings : DifficultySettings where
  addition := fun d =>
    if d = "easy" then some ⟨1, 10, 1, 10⟩
    else if d = "medium" then some ⟨1, 20, 1, 20⟩
    else if d = "hard" then some ⟨10, 50, 10, 50⟩
    else none
  subtraction := fun d =>
    if d = "easy" then some ⟨1, 10, 1, 10⟩
    else if d = "medium" then some ⟨10, 20, 1, 10⟩
    else if d = "hard" then some ⟨20, 100, 1, 20⟩
    else none
  threeNumber := some (fun d =>
    if d = "easy" then some ⟨1, 10, 1, 5, 1, 5⟩
    else if d = "medium" then some ⟨5, 15, 1, 10, 1, 10⟩
    else if d = "hard" then some ⟨10, 25, 5, 15, 5, 15⟩
    else none)
  mixed := fun d =>
    if d = "easy" then some ⟨1, 10, 1, 10⟩
    else if d = "medium" then some ⟨1, 20, 1, 20⟩
    else if d = "hard" then some ⟨10, 50, 1, 25⟩
    else none
  counting := fun d =>
    if d = "easy" then some ⟨5, 10⟩
    else if d = "medium" then some ⟨10, 20⟩
    else if d = "hard" then some ⟨15, 30⟩
    else none

/-- The `threeNumber` settings the configured table assigns to a
difficulty string (both lookup levels of `generateThreeNumberProblem`
combined). -/
def threeNumberSettingsOf (difficulty : String) : Option ThreeRange :=
  difficultySettings.threeNumber.bind fun tbl => tbl difficulty

/-- A generated problem object.  `ptype` is the optional `type` marker
(`'threeNumber'` where set) and `sourceMode` the tag added by
`generateProblemByMode`. -/
structure Problem where
  originalQuestion : String
  question : String
  answer : ℤ
  ptype : Option String
  sourceMode : Option String
deriving DecidableEq

/-- One of the two operator symbols a three-number question uses. -/
inductive TOp where
  | plus
  | minus
deriving DecidableEq

/-- Apply an operator left-to-right. -/
def TOp.apply : TOp → ℤ → ℤ → ℤ
  | .plus, x, y => x + y
  | .minus, x, y => x - y

/-- Render the operator the way the question template prints it. -/
def TOp.symbol : TOp → String
  | .plus => "+"
  | .minus => "-"

/-- The structured content of a three-number question
`a op1 b op2 c = ?`: the displayed operands and operators that both
the question string and the stored answer are computed from. -/
structure ThreeExpr where
  a : ℤ
  b : ℤ
  c : ℤ
  op1 : TOp
  op2 : TOp
deriving DecidableEq

/-- The left-to-right intermediate result `a op1 b` of the displayed
expression. -/
def ThreeExpr.first (e : ThreeExpr) : ℤ := e.op1.apply e.a e.b

/-- The value of the displayed expression, i.e. the stored `answer`. -/
def ThreeExpr.value (e : ThreeExpr) : ℤ := e.op2.apply e.first e.c

/-- Render the question template exactly as the source interpolates
it. -/
def ThreeExpr.render (e : ThreeExpr) : String :=
  let a := e.a
  let b := e.b
  let c := e.c
  let o1 := e.op1.symbol
  let o2 := e.op2.symbol
  s!"{a} {o1} {b} {o2} {c} = ?"

/-- The two `getRandomNumber` draws of a two-operand generator. -/
structure TwoDraws where
  n1 : ℤ
  n2 : ℤ
deriving DecidableEq

/-- The draws `generateThreeNumberProblem` may consume: the three
operand draws, the problem-type draw, the adjusted third-number draw
(case 2), the adjusted second-number draw (case 3), and the two
addition draws consumed if the missing-settings fallback path runs. -/
structure ThreeDraws where
  n1 : ℤ
  n2 : ℤ
  n3 : ℤ
  probType : ℤ
  adj3 : ℤ
  adj2 : ℤ
  fb1 : ℤ
  fb2 : ℤ
deriving DecidableEq

/-- The draws of the inline three-number builder in `script.js`
`newProblem` (its adjustments are deterministic, so only four draws
exist). -/
structure ScriptThreeDraws where
  n1 : ℤ
  n2 : ℤ
  n3 : ℤ
  probType : ℤ
deriving DecidableEq

/-- The draws of `generateCountingProblem`: the object count and the
emoji index `Math.floor(Math.random() * EMOJIS.length)`. -/
structure CountDraws where
  count : ℤ
  emoji : ℕ
deriving DecidableEq

/-- All draws `generateProblemByMode` may consume: the mixed-mode
`Math.random()` value `r`, the per-generator draws, and the three
draws of its `threeNumber` catch-branch fallback. -/
structure ModeDraws where
  r : ℚ
  add : TwoDraws
  sub : TwoDraws
  three : ThreeDraws
  count : CountDraws
  c1 : ℤ
  c2 : ℤ
  c3 : ℤ
deriving DecidableEq

/-- The problem object `generateAdditionProblem` builds from its two
draws: question `"num1 + num2 = ?"`, answer `num1 + num2`. -/
def addProblemOf (d : TwoDraws) : Problem :=
  let a := d.n1
  let b := d.n2
  let q := s!"{a} + {b} = ?"
  { originalQuestion := q, question := q, answer := d.n1 + d.n2,
    ptype := none, sourceMode := none }

/-- `generateAdditionProblem` from `problemGenerator.js`:
`num1 ∈ [min1, max1]`, `num2 ∈ [min2, max2]`, question
`"num1 + num2 = ?"`, answer `num1 + num2`.  `none` models the throw
when the addition settings for the difficulty are absent. -/
def generateAdditionProblem (difficulty : String) (ds : DifficultySettings)
    (d : TwoDraws) : Option Problem :=
  (ds.addition difficulty).map fun _ => addProblemOf d

/-- Validity of the draws of `generateAdditionProblem` for settings
`st`, one `RandSpec` per `getRandomNumber` call site. -/
def AddDrawsValid (st : TwoRange) (d : TwoDraws) : Prop :=
  RandSpec st.min1 st.max1 d.n1 ∧ RandSpec st.min2 st.max2 d.n2

/-- The problem object `generateSubtractionProblem` builds from its
two draws: question `"num1 - num2 = ?"`, answer `num1 - num2`. -/
def subProblemOf (d : TwoDraws) : Problem :=
  let a := d.n1
  let b := d.n2
  let q := s!"{a} - {b} = ?"
  { originalQuestion := q, question := q, answer := d.n1 - d.n2,
    ptype := none, sourceMode := none }

/-- `generateSubtractionProblem` from `problemGenerator.js`:
`num1 ∈ [min1, max1]`, `num2 ∈ [min2, min(max2, num1)]`, question
`"num1 - num2 = ?"`, answer `num1 - num2`. -/
def generateSubtractionProblem (difficulty : String) (ds : DifficultySettings)
    (d : TwoDraws) : Option Problem :=
  (ds.subtraction difficulty).map fun _ => subProblemOf d

/-- Validity of the draws of `generateSubtractionProblem` for settings
`st`: the second call's upper bound is `min(max2, num1)` — the
non-negativity clamp. -/
def SubDrawsValid (st : TwoRange) (d : TwoDraws) : Prop :=
  RandSpec st.min1 st.max1 d.n1 ∧ RandSpec st.min2 (min st.max2 d.n1) d.n2

/-- The operand/operator selection of `generateThreeNumberProblem`
(the `switch (problemType)` block), producing the structured
expression the question string and answer are built from.  `none`
corresponds to a `problemType` outside `1..3`, which the draw contract
rules out. -/
def threeNumberCore (st : ThreeRange) (d : ThreeDraws) : Option ThreeExpr :=
  if d.probType = 1 then
    some ⟨d.n1, d.n2, d.n3, .plus, .plus⟩
  else if d.probType = 2 then
    if d.n1 + d.n2 ≤ d.n3 then
      some ⟨d.n1, d.n2, d.adj3, .plus, .minus⟩
    else
      some ⟨d.n1, d.n2, d.n3, .plus, .minus⟩
  else if d.probType = 3 then
    if d.n1 ≤ st.min2 then
      some ⟨d.n1, d.n2, d.n3, .plus, .plus⟩
    else
      some ⟨d.n1, d.adj2, d.n3, .minus, .plus⟩
  else none

/-- Validity of the draws of `generateThreeNumberProblem` for settings
`st`: the three operand draws, `problemType ∈ [1, 3]`, the case-2
adjusted draw in `[1, max(1, num1 + num2 - 1)]`, and the case-3
adjusted draw in `[min2, min(max2, max(1, num1 - 1))]`. -/
def ThreeDrawsValid (st : ThreeRange) (d : ThreeDraws) : Prop :=
  RandSpec st.min1 st.max1 d.n1 ∧ RandSpec st.min2 st.max2 d.n2 ∧
    RandSpec st.min3 st.max3 d.n3 ∧ RandSpec 1 3 d.probType ∧
    RandSpec 1 (max 1 (d.n1 + d.n2 - 1)) d.adj3 ∧
    RandSpec st.min2 (min st.max2 (max 1 (d.n1 - 1))) d.adj2

/-- Package a `ThreeExpr` as the problem object
`generateThreeNumberProblem` returns (question rendered, answer
evaluated, `type: 'threeNumber'`). -/
def threeProblemOf (e : ThreeExpr) : Problem :=
  { originalQuestion := e.render, question := e.render, answer := e.value,
    ptype := some "threeNumber", sourceMode := none }

/-- `generateThreeNumberProblem` from `problemGenerator.js`: when the
`threeNumber` settings object or its entry for the difficulty is
absent it falls back to `generateAdditionProblem` (consuming the two
fallback draws); otherwise it draws the operands and builds the
question from the selected shape. -/
def generateThreeNumberProblem (difficulty : String)
    (ds : DifficultySettings) (d : ThreeDraws) : Option Problem :=
  match ds.threeNumber with
  | none => generateAdditionProblem difficulty ds ⟨d.fb1, d.fb2⟩
  | some tbl =>
    match tbl difficulty with
    | none => generateAdditionProblem difficulty ds ⟨d.fb1, d.fb2⟩
    | some st => (threeNumberCore st d).map threeProblemOf

/-- The inline three-number builder of `newProblem` in `script.js`
(the `switch (problemType)` there): same three shapes, but the case-2
and case-3 adjustments are deterministic clamps instead of fresh
draws. -/
def scriptThreeNumberCore (d : ScriptThreeDraws) : Option ThreeExpr :=
  if d.probType = 1 then
    some ⟨d.n1, d.n2, d.n3, .plus, .plus⟩
  else if d.probType = 2 then
    if d.n1 + d.n2 ≤ d.n3 then
      some ⟨d.n1, d.n2, min d.n3 (d.n1 + d.n2 - 1), .plus, .minus⟩
    else
      some ⟨d.n1, d.n2, d.n3, .plus, .minus⟩
  else if d.probType = 3 then
    if d.n1 ≤ d.n2 then
      some ⟨d.n1, min d.n2 (if d.n1 - 1 > 0 then d.n1 - 1 else 1), d.n3,
        .minus, .plus⟩
    else
      some ⟨d.n1, d.n2, d.n3, .minus, .plus⟩
  else none

/-- Validity of the draws of the inline `newProblem` three-number
builder for settings `st`. -/
def ScriptThreeDrawsValid (st : ThreeRange) (d : ScriptThreeDraws) : Prop :=
  RandSpec st.min1 st.max1 d.n1 ∧ RandSpec st.min2 st.max2 d.n2 ∧
    RandSpec st.min3 st.max3 d.n3 ∧ RandSpec 1 3 d.probType

/-- The emoji table of `problemGenerator.js`. -/
def EMOJIS : List String := ["🍎", "🍕", "🐶", "🐱", "🦄", "🍦", "🚗", "🌈", "⭐"]

/-- The emoji-string loop of `generateCountingProblem`: `n` iterations
appending the emoji, a space, and a `<br>` after every fifth item on
non-easy difficulties. -/
def countingLine (difficulty emoji : String) : ℕ → String
  | 0 => ""
  | n + 1 =>
    countingLine difficulty emoji n ++ emoji ++ " " ++
      (if difficulty ≠ "easy" ∧ n % 5 = 4 then "<br>" else "")

/-- `generateCountingProblem` from `problemGenerator.js`. -/
def generateCountingProblem (difficulty : String) (ds : DifficultySettings)
    (d : CountDraws) : Option Problem :=
  (ds.counting difficulty).map fun _ =>
    let emoji := EMOJIS.getD d.emoji ""
    let line := countingLine difficulty emoji d.count.toNat
    let q := s!"How many {emoji}?<br>{line}"
    { originalQuestion := q, question := q, answer := d.count,
      ptype := none, sourceMode := none }

/-- The operation the mixed-mode dispatch of `generateProblemByMode`
selects from the `Math.random()` value: thresholds `0.33` and `0.67`
exactly as the source writes them. -/
def mixedPick (r : ℚ) : String :=
  if r < 33 / 100 then "addition"
  else if r < 67 / 100 then "subtraction"
  else "threeNumber"

/-- The problem the catch branch of the `threeNumber` case of
`generateProblemByMode` constructs when the generator threw: a plain
`a + b + c` question from three fresh draws. -/
def threeNumberCatchFallback (d : ModeDraws) : Problem :=
  let a := d.c1
  let b := d.c2
  let c := d.c3
  let q := s!"{a} + {b} + {c} = ?"
  { originalQuestion := q, question := q, answer := d.c1 + d.c2 + d.c3,
    ptype := some "threeNumber", sourceMode := none }

/-- `generateProblemByMode` from `problemGenerator.js`: the
`switch (gameMode)` dispatch (sequential string comparison), the
mixed-mode random split at `0.33` / `0.67`, the try/catch around the
`threeNumber` generator, the silent default to addition for unknown
modes, and the final `problem.sourceMode = gameMode` tagging. -/
def generateProblemByMode (difficulty : String) (ds : DifficultySettings)
    (gameMode : String) (d : ModeDraws) : Option Problem :=
  (if gameMode = "addition" then
    generateAdditionProblem difficulty ds d.add
  else if gameMode = "subtraction" then
    generateSubtractionProblem difficulty ds d.sub
  else if gameMode = "threeNumber" then
    match generateThreeNumberProblem difficulty ds d.three with
    | some p => some p
    | none => some (threeNumberCatchFallback d)
  else if gameMode = "mixed" then
    if d.r < 33 / 100 then generateAdditionProblem difficulty ds d.add
    else if d.r < 67 / 100 then generateSubtractionProblem difficulty ds d.sub
    else generateThreeNumberProblem difficulty ds d.three
  else if gameMode = "counting" then
    generateCountingProblem difficulty ds d.count
  else
    generateAdditionProblem difficulty ds d.add
  ).map fun p => { p with sourceMode := some gameMode }

/-- An entry of `incorrectProblems`: `handleIncorrectAnswer` records a
copy holding only the question text and the answer. -/
structure IncorrectEntry where
  question : String
  answer : ℤ
deriving DecidableEq

/-- The `gameState` object of `src/gameState.js` / `script.js`.
`timerInterval` models whether the interval handle is set (non-null). -/
structure GameState where
  gameMode : String
  difficulty : String
  currentProblem : Option Problem
  score : ℤ
  incorrectAttempts : ℤ
  currentProblemAttempts : ℤ
  timeLeft : ℤ
  gameActive : Bool
  incorrectProblems : List IncorrectEntry
  timerInterval : Bool
deriving DecidableEq

/-- `DEFAULT_TIMER` from `src/gameState.js`. -/
def DEFAULT_TIMER : ℤ := 180

/-- `MAX_PROBLEM_ATTEMPTS` from `src/gameState.js`. -/
def MAX_PROBLEM_ATTEMPTS : ℤ := 3

/-- `initGameState` from `src/gameState.js`. -/
def initGameState : GameState :=
  { gameMode := "addition", difficulty := "easy", currentProblem := none,
    score := 0, incorrectAttempts := 0, currentProblemAttempts := 0,
    timeLeft := DEFAULT_TIMER, gameActive := false, incorrectProblems := [],
    timerInterval := false }

/-- `resetGameState` from `src/gameState.js`: spreads the old state and
overwrites the session counters — note it sets `gameActive: true`. -/
def resetGameState (s : GameState) : GameState :=
  { s with
    score := 0, incorrectAttempts := 0, currentProblemAttempts := 0,
    timeLeft := DEFAULT_TIMER, gameActive := true, incorrectProblems := [],
    currentProblem := none }

/-- `updateScore` from `src/gameState.js` (callers use the default
increment of 1). -/
def updateScore (s : GameState) (increment : ℤ) : GameState :=
  { s with score := s.score + increment }

/-- `recordIncorrectProblem` from `src/gameState.js`: unconditionally
increments both counters and appends the given problem copy. -/
def recordIncorrectProblem (s : GameState) (p : IncorrectEntry) : GameState :=
  { s with
    incorrectAttempts := s.incorrectAttempts + 1,
    currentProblemAttempts := s.currentProblemAttempts + 1,
    incorrectProblems := s.incorrectProblems ++ [p] }

/-- The dedup key of `getUniqueIncorrectProblems`:
`problem.question + problem.answer` (string concatenation). -/
def entryKey (p : IncorrectEntry) : String := p.question ++ toString p.answer

/-- The traversal of `getUniqueIncorrectProblems`, keeping the first
occurrence of each key. -/
def uniqueLoop : List IncorrectEntry → List String → List IncorrectEntry
  | [], _ => []
  | p :: rest, seen =>
    if entryKey p ∈ seen then uniqueLoop rest seen
    else p :: uniqueLoop rest (entryKey p :: seen)

/-- `getUniqueIncorrectProblems` from `src/gameState.js`. -/
def getUniqueIncorrectProblems (s : GameState) : List IncorrectEntry :=
  uniqueLoop s.incorrectProblems []

/-- `calculateAccuracy` from `src/gameState.js`:
`Math.round(100 * score / (score + incorrectAttempts))`, or 0 with no
attempts.  `round` on `ℚ` is floor of `x + 1/2`, matching
`Math.round`. -/
def calculateAccuracy (s : GameState) : ℤ :=
  let totalAttempts := s.score + s.incorrectAttempts
  if totalAttempts = 0 then 0
  else round ((s.score : ℚ) / (totalAttempts : ℚ) * 100)

/-- `hasReachedMaxAttempts` from `src/gameState.js` (callers use the
default threshold `MAX_PROBLEM_ATTEMPTS`). -/
def hasReachedMaxAttempts (s : GameState) (maxAttempts : ℤ) : Bool :=
  maxAttempts ≤ s.currentProblemAttempts

/-- `updateGameMode` from `src/gameState.js`. -/
def updateGameMode (s : GameState) (mode : String) : GameState :=
  { s with gameMode := mode }

/-- `updateDifficulty` from `src/gameState.js`. -/
def updateDifficulty (s : GameState) (difficulty : String) : GameState :=
  { s with difficulty := difficulty }

/-- `setGameActive` from `src/gameState.js`. -/
def setGameActive (s : GameState) (isActive : Bool) : GameState :=
  { s with gameActive := isActive }

/-- `updateCurrentProblem` from `problemGenerator.js`: installs a new
problem and resets the per-problem attempt counter. -/
def updateCurrentProblem (s : GameState) (p : Problem) : GameState :=
  { s with currentProblem := some p, currentProblemAttempts := 0 }

/-- The state part of `startGame` in `script.js`: a fresh session
object that explicitly preserves the selected mode and difficulty,
then `gameState.timerInterval = setInterval(...)`.  (The subsequent
`newProblem()` call installs the first problem via
`updateCurrentProblem`.) -/
def startGame (s : GameState) : GameState :=
  { gameMode := s.gameMode, difficulty := s.difficulty,
    score := 0, incorrectAttempts := 0, currentProblemAttempts := 0,
    timeLeft := 180, gameActive := true, incorrectProblems := [],
    currentProblem := none, timerInterval := true }

/-- The entry `handleIncorrectAnswer` records: a copy of the current
problem holding its question and answer (`{}` before any problem is
installed is modelled by the empty entry, a state the handler is not
reachable in). -/
def currentEntry (s : GameState) : IncorrectEntry :=
  match s.currentProblem with
  | some p => ⟨p.question, p.answer⟩
  | none => ⟨"", 0⟩

/-- The state part of `handleIncorrectAnswer` in `script.js`: records
the incorrect attempt, and the returned flag says whether
`hasReachedMaxAttempts` held afterwards, i.e. whether the
reveal-answer / delayed-advance path was taken. -/
def handleIncorrectAnswer (s : GameState) : GameState × Bool :=
  let s2 := recordIncorrectProblem s (currentEntry s)
  (s2, hasReachedMaxAttempts s2 MAX_PROBLEM_ATTEMPTS)

/-- The state after one incorrect-answer submission. -/
def incStep (s : GameState) : GameState := (handleIncorrectAnswer s).1

/-- What `showGameResults` computes at the end of a session: the final
score, the raw incorrect-attempt count, `calculateAccuracy`, and the
deduplicated missed-problem list (an empty list models the section
being omitted). -/
structure GameSummary where
  score : ℤ
  incorrectAttempts : ℤ
  accuracy : ℤ
  missed : List IncorrectEntry
deriving DecidableEq

/-- `endGame` in `script.js`: deactivates the game, clears the timer
interval, and shows the results summary. -/
def endGame (s : GameState) : GameState × GameSummary :=
  let s2 := { s with gameActive := false, timerInterval := false }
  (s2, ⟨s2.score, s2.incorrectAttempts, calculateAccuracy s2,
    getUniqueIncorrectProblems s2⟩)

/-- `updateTimer` in `script.js` (the tick transition): when the game
is not active it only clears a stale interval; otherwise it decrements
`timeLeft` and, when that went below 0, clamps it back to 0 and runs
`endGame`, whose summary is returned. -/
def updateTimer (s : GameState) : GameState × Option GameSummary :=
  if s.gameActive = false then
    ({ s with timerInterval := false }, none)
  else
    let s1 := { s with timeLeft := s.timeLeft - 1 }
    if s1.timeLeft < 0 then
      let s2 := { s1 with timeLeft := 0 }
      let ended := endGame s2
      (ended.1, some ended.2)
    else (s1, none)

/-- The state component of one tick. -/
def tickState (s : GameState) : GameState := (updateTimer s).1

/-- The state part of `handleOperationButtonClick` in `script.js`:
while the game is active it only shows the locked message (flag
`true`) and changes nothing; otherwise it applies `updateGameMode`. -/
def handleOperationButtonClick (s : GameState) (mode : String) :
    GameState × Bool :=
  if s.gameActive then (s, true)
  else (updateGameMode s mode, false)

/-- The state part of `handleDifficultyButtonClick` in `script.js`:
while the game is active it only shows the locked message (flag
`true`) and changes nothing; otherwise it applies
`updateDifficulty`. -/
def handleDifficultyButtonClick (s : GameState) (tier : String) :
    GameState × Bool :=
  if s.gameActive then (s, true)
  else (updateDifficulty s tier, false)

/-! Concrete example inputs used to instantiate the theorems below. -/

/-- A concrete addition problem as `newProblem` could install it. -/
def exampleProblem : Problem :=
  { originalQuestion := "2 + 2 = ?", question := "2 + 2 = ?", answer := 4,
    ptype := none, sourceMode := none }

/-- A freshly started session with `exampleProblem` installed. -/
def exampleSession : GameState :=
  updateCurrentProblem (startGame initGameState) exampleProblem

/-- A settings object whose `threeNumber` table is entirely absent
(first guard of `generateThreeNumberProblem`). -/
def cfgNoThreeNumber : DifficultySettings :=
  { difficultySettings with threeNumber := none }

/-- A settings object whose `threeNumber` table exists but has no
entry for any difficulty (second guard of
`generateThreeNumberProblem`). -/
def cfgNoThreeNumberTier : DifficultySettings :=
  { difficultySettings with threeNumber := some (fun _ => none) }

/-- Concrete draws whose addition-fallback values are 2 and 3. -/
def fallbackDraws : ThreeDraws := ⟨0, 0, 0, 0, 0, 0, 2, 3⟩

/-! ## Theorems -/

/-- C9: `resetGameState` performs a session-start reset: for every
input state it zeroes the counters, restores the 180-second timer,
empties `incorrectProblems` and `currentProblem`, preserves `gameMode`
and `difficulty`, and — despite its name — sets `gameActive` to `true`
rather than returning to the idle state. -/
theorem resetGameState_is_session_start (s : GameState) :
    resetGameState s =
      { gameMode := s.gameMode, difficulty := s.difficulty,
        currentProblem := none, score := 0, incorrectAttempts := 0,
        currentProblemAttempts := 0, timeLeft := 180, gameActive := true,
        incorrectProblems := [], timerInterval := s.timerInterval } ∧
    (resetGameState s).gameActive = true := by
  exact ⟨rfl, rfl⟩

/-- C7: while a session is running (`gameActive = true`) both the
mode and the difficulty click handlers leave the state completely
unchanged and signal the lock condition; as soon as `gameActive` is
false the same handlers do update the respective field. -/
theorem selection_locked_while_active (s : GameState) (mode tier : String) :
    (s.gameActive = true →
      handleOperationButtonClick s mode = (s, true) ∧
      handleDifficultyButtonClick s tier = (s, true)) ∧
    (s.gameActive = false →
      handleOperationButtonClick s mode = ({ s with gameMode := mode }, false) ∧
      handleDifficultyButtonClick s tier =
        ({ s with difficulty := tier }, false)) := by
  constructor
  · intro h
    simp [handleOperationButtonClick, handleDifficultyButtonClick, h]
  · intro h
    simp [handleOperationButtonClick, handleDifficultyButtonClick, h,
      updateGameMode, updateDifficulty]

/-- Witness for C7 at a concrete running session. -/
theorem selection_locked_while_active_witness :
    handleOperationButtonClick (startGame initGameState) "threeNumber" =
      (startGame initGameState, true) ∧
    handleDifficultyButtonClick (startGame initGameState) "hard" =
      (startGame initGameState, true) :=
  (selection_locked_while_active (startGame initGameState) "threeNumber"
    "hard").1 rfl

/-- C2 (code evaluated at the failing input): when the `threeNumber`
settings object — or its entry for the requested tier — is absent,
`generateThreeNumberProblem` does not fail: it silently returns the
two-operand problem produced by `generateAdditionProblem` (here
`"2 + 3 = ?"` with answer 5), contradicting the required fatal
`MissingConfigurationError`. -/
theorem missing_threeNumber_config_falls_back_to_addition :
    generateThreeNumberProblem "easy" cfgNoThreeNumber fallbackDraws =
      some { originalQuestion := "2 + 3 = ?", question := "2 + 3 = ?",
             answer := 5, ptype := none, sourceMode := none } ∧
    generateThreeNumberProblem "easy" cfgNoThreeNumberTier fallbackDraws =
      some { originalQuestion := "2 + 3 = ?", question := "2 + 3 = ?",
             answer := 5, ptype := none, sourceMode := none } := by
  exact ⟨rfl, rfl⟩

/-- C1 (counterexample): submitting three incorrect answers on one
problem leaves `incorrectAttemptsTotal = 3` but THREE entries in
`incorrectProblems`, not the single entry the claim asserts —
`recordIncorrectProblem` appends on every attempt, not only on the
0→1 transition. -/
theorem three_wrong_answers_yield_three_entries :
    (incStep^[3] exampleSession).incorrectAttempts = 3 ∧
    (incStep^[3] exampleSession).incorrectProblems.length = 3 ∧
    ¬ (incStep^[3] exampleSession).incorrectProblems.length = 1 :=
  ⟨rfl, rfl, by decide⟩

/-- C1 (amended): every incorrect submission appends a copy of the
current problem to `incorrectProblems`; three incorrect answers on
one fresh problem give `incorrectAttemptsTotal = 3` and three
(identical) entries, of which the deduplicated list
`getUniqueIncorrectProblems` retains exactly one, and the third
attempt triggers the reveal/advance path. -/
theorem every_incorrect_attempt_appends (s : GameState) (p : Problem)
    (hp : s.currentProblem = some p) (h0 : s.currentProblemAttempts = 0)
    (hi : s.incorrectAttempts = 0) (hl : s.incorrectProblems = []) :
    (∀ t : GameState,
      (handleIncorrectAnswer t).1.incorrectProblems =
        t.incorrectProblems ++ [currentEntry t]) ∧
    (incStep^[3] s).incorrectAttempts = 3 ∧
    (incStep^[3] s).incorrectProblems =
      [⟨p.question, p.answer⟩, ⟨p.question, p.answer⟩, ⟨p.question, p.answer⟩] ∧
    getUniqueIncorrectProblems (incStep^[3] s) = [⟨p.question, p.answer⟩] ∧
    (handleIncorrectAnswer (incStep^[2] s)).2 = true := by
  have hstep : ∀ t : GameState, incStep t =
      { t with
        incorrectAttempts := t.incorrectAttempts + 1,
        currentProblemAttempts := t.currentProblemAttempts + 1,
        incorrectProblems := t.incorrectProblems ++ [currentEntry t] } := by
    intro t; rfl
  refine ⟨fun t => rfl, ?_, ?_, ?_, ?_⟩
  · simp [Function.iterate_succ_apply, hstep, hi]
  · simp [Function.iterate_succ_apply, hstep, hl, currentEntry, hp]
  · simp [Function.iterate_succ_apply, hstep, hl, currentEntry, hp,
      getUniqueIncorrectProblems, uniqueLoop]
  · simp [Function.iterate_succ_apply, hstep, handleIncorrectAnswer,
      hasReachedMaxAttempts, MAX_PROBLEM_ATTEMPTS, recordIncorrectProblem, h0]

/-- Witness for the amended C1 at the concrete fresh session. -/
theorem every_incorrect_attempt_appends_witness :
    getUniqueIncorrectProblems (incStep^[3] exampleSession) =
      [⟨exampleProblem.question, exampleProblem.answer⟩] ∧
    (handleIncorrectAnswer (incStep^[2] exampleSession)).2 = true :=
  ⟨(every_incorrect_attempt_appends exampleSession exampleProblem rfl rfl rfl
      rfl).2.2.2.1,
   (every_incorrect_attempt_appends exampleSession exampleProblem rfl rfl rfl
      rfl).2.2.2.2⟩

/-- While the session stays active and the countdown cannot expire,
`n` ticks just subtract `n` seconds and change nothing else. -/
theorem tick_while_active : ∀ (n : ℕ) (s : GameState),
    s.gameActive = true → (n : ℤ) ≤ s.timeLeft →
    tickState^[n] s = { s with timeLeft := s.timeLeft - n } := by
  intro n
  induction n with
  | zero => intro s h hn; simp
  | succ n ih =>
    intro s h hn
    rw [Function.iterate_succ_apply]
    have ht : tickState s = { s with timeLeft := s.timeLeft - 1 } := by
      simp only [tickState, updateTimer, h]
      rw [if_neg (by simp), if_neg (by push_cast at hn; omega)]
    rw [ht, ih { s with timeLeft := s.timeLeft - 1 } h
      (by push_cast at hn ⊢; omega)]
    congr 1
    push_cast
    ring

/-- C3 (counterexample): from a freshly started session
(`gameActive = true`, `timeLeft = 180`) applying the tick transition
exactly 180 times leaves the session still ACTIVE with
`timeLeft = 0` — the end-of-session path only runs on the 181st
tick, contradicting the claim that 180 ticks end the session. -/
theorem tick_180_times_leaves_session_active :
    (tickState^[180] (startGame initGameState)).gameActive = true ∧
    (tickState^[180] (startGame initGameState)).timeLeft = 0 := by
  have h := tick_while_active 180 (startGame initGameState) rfl (by decide)
  refine ⟨by rw [h]; rfl, by rw [h]; decide⟩

/-- C3 (amended): each tick while active decrements `timeLeftSeconds`
and, if the decrement would go below 0, clamps it to 0, deactivates
the session and produces the end-of-session summary (accuracy and
deduplicated missed-problem list); from a freshly started session
this happens on the 181st tick, not the 180th. -/
theorem tick_decrements_clamps_and_ends_after_181 :
    (∀ s : GameState, s.gameActive = true → 0 ≤ s.timeLeft - 1 →
      updateTimer s = ({ s with timeLeft := s.timeLeft - 1 }, none)) ∧
    (∀ s : GameState, s.gameActive = true → s.timeLeft - 1 < 0 →
      updateTimer s =
        ({ s with timeLeft := 0, gameActive := false, timerInterval := false },
         some ⟨s.score, s.incorrectAttempts, calculateAccuracy s,
           getUniqueIncorrectProblems s⟩)) ∧
    (tickState^[181] (startGame initGameState)).gameActive = false ∧
    (tickState^[181] (startGame initGameState)).timeLeft = 0 ∧
    (updateTimer (tickState^[180] (startGame initGameState))).2 =
      some ⟨0, 0, 0, []⟩ := by
  have htick : ∀ x : GameState, tickState x = (updateTimer x).1 :=
    fun x => rfl
  have hdec : ∀ s : GameState, s.gameActive = true → 0 ≤ s.timeLeft - 1 →
      updateTimer s = ({ s with timeLeft := s.timeLeft - 1 }, none) := by
    intro s h hge
    simp only [updateTimer, h]
    rw [if_neg (by simp), if_neg (by omega)]
  have hend : ∀ s : GameState, s.gameActive = true → s.timeLeft - 1 < 0 →
      updateTimer s =
        ({ s with timeLeft := 0, gameActive := false, timerInterval := false },
         some ⟨s.score, s.incorrectAttempts, calculateAccuracy s,
           getUniqueIncorrectProblems s⟩) := by
    intro s h hlt
    simp only [updateTimer, h, endGame]
    rw [if_neg (by simp), if_pos (by omega)]
    rfl
  have h180 := tick_while_active 180 (startGame initGameState) rfl (by decide)
  have hlast := hend (tickState^[180] (startGame initGameState))
    (by rw [h180]; rfl) (by rw [h180]; decide)
  refine ⟨hdec, hend, ?_, ?_, ?_⟩
  · rw [Function.iterate_succ_apply', htick, hlast]
  · rw [Function.iterate_succ_apply', htick, hlast]
  · rw [hlast, h180]
    rfl

/-- Witness for the amended C3: the first tick of a fresh session
just decrements 180 to 179. -/
theorem tick_decrements_clamps_and_ends_after_181_witness :
    updateTimer (startGame initGameState) =
      ({ startGame initGameState with
         timeLeft := (startGame initGameState).timeLeft - 1 }, none) :=
  tick_decrements_clamps_and_ends_after_181.1 (startGame initGameState) rfl
    (by decide)

/-- C4 (counterexample): modelling the mixed-mode draw as a value
uniform on `[0, 1)`, the set of draws that select subtraction is the
interval `[0.33, 0.67)`, whose measure (interval length) is
`0.34 ≠ 1/3` — so the three operations are NOT each chosen with
probability exactly one third. -/
theorem mixed_dispatch_not_uniform_third :
    {r : ℚ | 0 ≤ r ∧ r < 1 ∧ mixedPick r = "subtraction"} =
      Set.Ico (33/100 : ℚ) (67/100) ∧
    (67/100 - 33/100 : ℚ) ≠ 1/3 := by
  constructor
  · ext r
    simp only [Set.mem_setOf_eq, Set.mem_Ico, mixedPick]
    constructor
    · rintro ⟨h0, h1, hpick⟩
      split_ifs at hpick with ha hb
      · exact absurd hpick (by decide)
      · exact ⟨le_of_not_lt ha, hb⟩
      · exact absurd hpick (by decide)
    · rintro ⟨hge, hlt⟩
      refine ⟨by linarith, by linarith, ?_⟩
      rw [if_neg (not_lt.mpr hge), if_pos hlt]
  · norm_num

/-- C4 (amended): the mixed-mode dispatch splits the uniform draw on
`[0, 1)` into the intervals `[0, 0.33)` → addition, `[0.33, 0.67)` →
subtraction and `[0.67, 1)` → three-number, of lengths 0.33, 0.34 and
0.33 — approximately, but not exactly, one third each; and
`generateProblemByMode` in mixed mode is exactly this `mixedPick`
dispatch over the three generators. -/
theorem mixed_dispatch_interval_measures :
    {r : ℚ | 0 ≤ r ∧ r < 1 ∧ mixedPick r = "addition"} =
      Set.Ico (0 : ℚ) (33/100) ∧
    {r : ℚ | 0 ≤ r ∧ r < 1 ∧ mixedPick r = "threeNumber"} =
      Set.Ico (67/100 : ℚ) 1 ∧
    (33/100 - 0 : ℚ) = 33/100 ∧ (67/100 - 33/100 : ℚ) = 34/100 ∧
    (1 - 67/100 : ℚ) = 33/100 ∧
    (∀ (difficulty : String) (ds : DifficultySettings) (d : ModeDraws),
      generateProblemByMode difficulty ds "mixed" d =
        (if mixedPick d.r = "addition" then
          generateAdditionProblem difficulty ds d.add
         else if mixedPick d.r = "subtraction" then
          generateSubtractionProblem difficulty ds d.sub
         else generateThreeNumberProblem difficulty ds d.three).map
          (fun p => { p with sourceMode := some "mixed" })) := by
  refine ⟨?_, ?_, by norm_num, by norm_num, by norm_num, ?_⟩
  · ext r
    simp only [Set.mem_setOf_eq, Set.mem_Ico, mixedPick]
    constructor
    · rintro ⟨h0, h1, hpick⟩
      split_ifs at hpick with ha hb
      · exact ⟨h0, ha⟩
      · exact absurd hpick (by decide)
      · exact absurd hpick (by decide)
    · rintro ⟨hge, hlt⟩
      exact ⟨hge, by linarith, by rw [if_pos hlt]⟩
  · ext r
    simp only [Set.mem_setOf_eq, Set.mem_Ico, mixedPick]
    constructor
    · rintro ⟨h0, h1, hpick⟩
      split_ifs at hpick with ha hb
      · exact absurd hpick (by decide)
      · exact absurd hpick (by decide)
      · exact ⟨le_of_not_lt hb, h1⟩
    · rintro ⟨hge, hlt⟩
      refine ⟨by linarith, hlt, ?_⟩
      rw [if_neg (by linarith), if_neg (not_lt.mpr hge)]
  · intro difficulty ds d
    simp only [generateProblemByMode, mixedPick]
    rw [if_neg (by decide), if_neg (by decide), if_neg (by decide),
      if_pos trivial]
    split_ifs <;> simp_all

/-- For any settings whose six bounds are well-formed with all minima
at least 1 — as every configured `threeNumber` tier is — the shape
selection of `generateThreeNumberProblem` yields an expression that
is non-negative at every left-to-right evaluation point, never uses
two subtractions, and subtracts only a smaller (or equal) operand. -/
theorem threeNumberCore_safe (st : ThreeRange) (d : ThreeDraws)
    (hmin1 : 1 ≤ st.min1) (h1 : st.min1 ≤ st.max1)
    (hmin2 : 1 ≤ st.min2) (h2 : st.min2 ≤ st.max2)
    (hmin3 : 1 ≤ st.min3) (h3 : st.min3 ≤ st.max3)
    (hv : ThreeDrawsValid st d) :
    ∃ e, threeNumberCore st d = some e ∧ 0 ≤ e.first ∧ 0 ≤ e.value ∧
      ¬(e.op1 = TOp.minus ∧ e.op2 = TOp.minus) ∧
      (e.op1 = TOp.minus → e.b ≤ e.a) := by
  obtain ⟨hn1, hn2, hn3, hpt, hadj3, hadj2⟩ := hv
  obtain ⟨hn1a, hn1b⟩ := hn1 h1
  obtain ⟨hn2a, hn2b⟩ := hn2 h2
  obtain ⟨hn3a, hn3b⟩ := hn3 h3
  obtain ⟨hpa, hpb⟩ := hpt (by norm_num)
  have hN1 : 1 ≤ d.n1 := le_trans hmin1 hn1a
  have hN2 : 1 ≤ d.n2 := le_trans hmin2 hn2a
  have hN3 : 1 ≤ d.n3 := le_trans hmin3 hn3a
  have hcase : d.probType = 1 ∨ d.probType = 2 ∨ d.probType = 3 := by omega
  rcases hcase with hc | hc | hc
  · refine ⟨⟨d.n1, d.n2, d.n3, .plus, .plus⟩, by simp [threeNumberCore, hc],
      ?_, ?_, by simp, by simp⟩
    · simp only [ThreeExpr.first, TOp.apply]; omega
    · simp only [ThreeExpr.value, ThreeExpr.first, TOp.apply]; omega
  · by_cases hle : d.n1 + d.n2 ≤ d.n3
    · obtain ⟨ha3a, ha3b⟩ := hadj3 (le_max_left 1 _)
      refine ⟨⟨d.n1, d.n2, d.adj3, .plus, .minus⟩,
        by simp [threeNumberCore, hc, hle], ?_, ?_, by simp, by simp⟩
      · simp only [ThreeExpr.first, TOp.apply]; omega
      · simp only [ThreeExpr.value, ThreeExpr.first, TOp.apply]; omega
    · refine ⟨⟨d.n1, d.n2, d.n3, .plus, .minus⟩,
        by simp [threeNumberCore, hc, hle], ?_, ?_, by simp, by simp⟩
      · simp only [ThreeExpr.first, TOp.apply]; omega
      · simp only [ThreeExpr.value, ThreeExpr.first, TOp.apply]; omega
  · by_cases hsm : d.n1 ≤ st.min2
    · refine ⟨⟨d.n1, d.n2, d.n3, .plus, .plus⟩,
        by simp [threeNumberCore, hc, hsm], ?_, ?_, by simp, by simp⟩
      · simp only [ThreeExpr.first, TOp.apply]; omega
      · simp only [ThreeExpr.value, ThreeExpr.first, TOp.apply]; omega
    · obtain ⟨ha2a, ha2b⟩ := hadj2 (by omega)
      refine ⟨⟨d.n1, d.adj2, d.n3, .minus, .plus⟩,
        by simp [threeNumberCore, hc, hsm], ?_, ?_, by simp, ?_⟩
      · simp only [ThreeExpr.first, TOp.apply]; omega
      · simp only [ThreeExpr.value, ThreeExpr.first, TOp.apply]; omega
      · intro _; show d.adj2 ≤ d.n1; omega

/-- The same safety property for the inline three-number builder of
`newProblem` in `script.js`, whose adjustments are deterministic
clamps. -/
theorem scriptThreeNumberCore_safe (st : ThreeRange) (sd : ScriptThreeDraws)
    (hmin1 : 1 ≤ st.min1) (h1 : st.min1 ≤ st.max1)
    (hmin2 : 1 ≤ st.min2) (h2 : st.min2 ≤ st.max2)
    (hmin3 : 1 ≤ st.min3) (h3 : st.min3 ≤ st.max3)
    (hv : ScriptThreeDrawsValid st sd) :
    ∃ f, scriptThreeNumberCore sd = some f ∧ 0 ≤ f.first ∧ 0 ≤ f.value ∧
      ¬(f.op1 = TOp.minus ∧ f.op2 = TOp.minus) ∧
      (f.op1 = TOp.minus → f.b ≤ f.a) := by
  obtain ⟨hn1, hn2, hn3, hpt⟩ := hv
  obtain ⟨hn1a, hn1b⟩ := hn1 h1
  obtain ⟨hn2a, hn2b⟩ := hn2 h2
  obtain ⟨hn3a, hn3b⟩ := hn3 h3
  obtain ⟨hpa, hpb⟩ := hpt (by norm_num)
  have hN1 : 1 ≤ sd.n1 := le_trans hmin1 hn1a
  have hN2 : 1 ≤ sd.n2 := le_trans hmin2 hn2a
  have hN3 : 1 ≤ sd.n3 := le_trans hmin3 hn3a
  have hcase : sd.probType = 1 ∨ sd.probType = 2 ∨ sd.probType = 3 := by omega
  rcases hcase with hc | hc | hc
  · refine ⟨⟨sd.n1, sd.n2, sd.n3, .plus, .plus⟩,
      by simp [scriptThreeNumberCore, hc], ?_, ?_, by simp, by simp⟩
    · simp only [ThreeExpr.first, TOp.apply]; omega
    · simp only [ThreeExpr.value, ThreeExpr.first, TOp.apply]; omega
  · by_cases hle : sd.n1 + sd.n2 ≤ sd.n3
    · refine ⟨⟨sd.n1, sd.n2, min sd.n3 (sd.n1 + sd.n2 - 1), .plus, .minus⟩,
        by simp [scriptThreeNumberCore, hc, hle], ?_, ?_, by simp, by simp⟩
      · simp only [ThreeExpr.first, TOp.apply]; omega
      · simp only [ThreeExpr.value, ThreeExpr.first, TOp.apply]; omega
    · refine ⟨⟨sd.n1, sd.n2, sd.n3, .plus, .minus⟩,
        by simp [scriptThreeNumberCore, hc, hle], ?_, ?_, by simp, by simp⟩
      · simp only [ThreeExpr.first, TOp.apply]; omega
      · simp only [ThreeExpr.value, ThreeExpr.first, TOp.apply]; omega
  · by_cases hsm : sd.n1 ≤ sd.n2
    · refine ⟨⟨sd.n1,
        min sd.n2 (if sd.n1 - 1 > 0 then sd.n1 - 1 else 1), sd.n3,
        .minus, .plus⟩,
        by simp [scriptThreeNumberCore, hc, hsm], ?_, ?_, by simp, ?_⟩
      · by_cases hgt : sd.n1 - 1 > 0
        · simp only [ThreeExpr.first, TOp.apply, if_pos hgt]; omega
        · simp only [ThreeExpr.first, TOp.apply, if_neg hgt]; omega
      · by_cases hgt : sd.n1 - 1 > 0
        · simp only [ThreeExpr.value, ThreeExpr.first, TOp.apply, if_pos hgt]
          omega
        · simp only [ThreeExpr.value, ThreeExpr.first, TOp.apply, if_neg hgt]
          omega
      · intro _
        by_cases hgt : sd.n1 - 1 > 0
        · simp only [if_pos hgt]; omega
        · simp only [if_neg hgt]; omega
    · refine ⟨⟨sd.n1, sd.n2, sd.n3, .minus, .plus⟩,
        by simp [scriptThreeNumberCore, hc, hsm], ?_, ?_, by simp, ?_⟩
      · simp only [ThreeExpr.first, TOp.apply]; omega
      · simp only [ThreeExpr.value, ThreeExpr.first, TOp.apply]; omega
      · intro _; show sd.n2 ≤ sd.n1; omega

/-- The C5 conclusion for any well-formed bounds, given that the
generator's settings lookup already succeeded. -/
theorem threeNumber_claim_tail (difficulty : String) (st : ThreeRange)
    (d : ThreeDraws) (sd : ScriptThreeDraws)
    (hb : 1 ≤ st.min1 ∧ st.min1 ≤ st.max1 ∧ 1 ≤ st.min2 ∧
      st.min2 ≤ st.max2 ∧ 1 ≤ st.min3 ∧ st.min3 ≤ st.max3)
    (hgen : generateThreeNumberProblem difficulty difficultySettings d =
      (threeNumberCore st d).map threeProblemOf)
    (hd : ThreeDrawsValid st d) (hs : ScriptThreeDrawsValid st sd) :
    (∃ e, threeNumberCore st d = some e ∧
      generateThreeNumberProblem difficulty difficultySettings d =
        some (threeProblemOf e) ∧
      0 ≤ e.first ∧ 0 ≤ e.value ∧ 0 ≤ (threeProblemOf e).answer ∧
      ¬(e.op1 = TOp.minus ∧ e.op2 = TOp.minus) ∧
      (e.op1 = TOp.minus → e.b ≤ e.a)) ∧
    (∃ f, scriptThreeNumberCore sd = some f ∧ 0 ≤ f.first ∧ 0 ≤ f.value ∧
      ¬(f.op1 = TOp.minus ∧ f.op2 = TOp.minus) ∧
      (f.op1 = TOp.minus → f.b ≤ f.a)) := by
  obtain ⟨hb1, hb2, hb3, hb4, hb5, hb6⟩ := hb
  obtain ⟨e, hcore, he1, he2, he3, he4⟩ :=
    threeNumberCore_safe st d hb1 hb2 hb3 hb4 hb5 hb6 hd
  obtain ⟨f, hf0, hf1, hf2, hf3, hf4⟩ :=
    scriptThreeNumberCore_safe st sd hb1 hb2 hb3 hb4 hb5 hb6 hs
  refine ⟨⟨e, hcore, ?_, he1, he2, he2, he3, he4⟩,
    ⟨f, hf0, hf1, hf2, hf3, hf4⟩⟩
  rw [hgen, hcore]
  rfl

/-- C5: for every configured difficulty tier and every outcome of the
draws, a generated three-number problem (from the generator module as
well as from the inline `newProblem` builder) has a non-negative
answer, a non-negative left-to-right intermediate result (in
particular `a ≥ b` whenever the expression starts `a - b`), and the
shape `a - b - c` is never produced (the two operators are never both
subtraction). -/
theorem threeNumber_problems_never_negative
    (difficulty : String) (st : ThreeRange) (d : ThreeDraws)
    (sd : ScriptThreeDraws)
    (ht : difficulty = "easy" ∨ difficulty = "medium" ∨ difficulty = "hard")
    (hst : threeNumberSettingsOf difficulty = some st)
    (hd : ThreeDrawsValid st d) (hs : ScriptThreeDrawsValid st sd) :
    (∃ e, threeNumberCore st d = some e ∧
      generateThreeNumberProblem difficulty difficultySettings d =
        some (threeProblemOf e) ∧
      0 ≤ e.first ∧ 0 ≤ e.value ∧ 0 ≤ (threeProblemOf e).answer ∧
      ¬(e.op1 = TOp.minus ∧ e.op2 = TOp.minus) ∧
      (e.op1 = TOp.minus → e.b ≤ e.a)) ∧
    (∃ f, scriptThreeNumberCore sd = some f ∧ 0 ≤ f.first ∧ 0 ≤ f.value ∧
      ¬(f.op1 = TOp.minus ∧ f.op2 = TOp.minus) ∧
      (f.op1 = TOp.minus → f.b ≤ f.a)) := by
  rcases ht with h | h | h <;> subst h <;>
    (injection hst with h2; subst h2;
     exact threeNumber_claim_tail _ _ _ _ (by decide) rfl hd hs)

/-- Witness for C5 at the easy tier with concrete draws exercising
the adjusted `a + b - c` shape. -/
theorem threeNumber_problems_never_negative_witness :
    ∃ e, threeNumberCore ⟨1, 10, 1, 5, 1, 5⟩ ⟨1, 1, 5, 2, 1, 1, 0, 0⟩ =
        some e ∧
      generateThreeNumberProblem "easy" difficultySettings
        ⟨1, 1, 5, 2, 1, 1, 0, 0⟩ = some (threeProblemOf e) ∧
      0 ≤ e.first ∧ 0 ≤ e.value ∧ 0 ≤ (threeProblemOf e).answer ∧
      ¬(e.op1 = TOp.minus ∧ e.op2 = TOp.minus) ∧
      (e.op1 = TOp.minus → e.b ≤ e.a) :=
  (threeNumber_problems_never_negative "easy" ⟨1, 10, 1, 5, 1, 5⟩
    ⟨1, 1, 5, 2, 1, 1, 0, 0⟩ ⟨1, 1, 1, 3⟩ (Or.inl rfl) rfl
    (by unfold ThreeDrawsValid RandSpec; decide)
    (by unfold ScriptThreeDrawsValid RandSpec; decide)).1

/-- C6: for every configured difficulty tier, a subtraction problem
draws `a ∈ [min1, max1]` and `b ∈ [min2, min(max2, a)]`, its answer
equals `a - b`, and the answer is non-negative. -/
theorem subtraction_answer_is_difference_and_nonneg
    (difficulty : String) (st : TwoRange) (d : TwoDraws)
    (ht : difficulty = "easy" ∨ difficulty = "medium" ∨ difficulty = "hard")
    (hst : difficultySettings.subtraction difficulty = some st)
    (hd : SubDrawsValid st d) :
    generateSubtractionProblem difficulty difficultySettings d =
      some (subProblemOf d) ∧
    (subProblemOf d).answer = d.n1 - d.n2 ∧ 0 ≤ (subProblemOf d).answer ∧
    st.min1 ≤ d.n1 ∧ d.n1 ≤ st.max1 ∧
    st.min2 ≤ d.n2 ∧ d.n2 ≤ min st.max2 d.n1 := by
  have hgen : generateSubtractionProblem difficulty difficultySettings d =
      some (subProblemOf d) := by
    simp [generateSubtractionProblem, hst]
  obtain ⟨hn1, hn2⟩ := hd
  have hb : 1 ≤ st.min1 ∧ st.min1 ≤ st.max1 ∧ st.min2 ≤ st.max2 ∧
      st.min2 ≤ st.min1 := by
    rcases ht with h | h | h <;> subst h <;>
      (injection hst with h2; subst h2; decide)
  obtain ⟨ha, hb2⟩ := hn1 hb.2.1
  obtain ⟨hc, hd2⟩ := hn2 (by omega)
  refine ⟨hgen, rfl, ?_, ha, hb2, hc, hd2⟩
  show 0 ≤ d.n1 - d.n2
  omega

/-- Witness for C6 at the easy tier with draws 5 and 3. -/
theorem subtraction_answer_is_difference_and_nonneg_witness :
    generateSubtractionProblem "easy" difficultySettings ⟨5, 3⟩ =
      some (subProblemOf ⟨5, 3⟩) ∧
    (subProblemOf (⟨5, 3⟩ : TwoDraws)).answer = 5 - 3 ∧
    0 ≤ (subProblemOf (⟨5, 3⟩ : TwoDraws)).answer ∧
    (1 : ℤ) ≤ 5 ∧ (5 : ℤ) ≤ 10 ∧ (1 : ℤ) ≤ 3 ∧ (3 : ℤ) ≤ min 10 5 :=
  subtraction_answer_is_difference_and_nonneg "easy" ⟨1, 10, 1, 10⟩ ⟨5, 3⟩
    (Or.inl rfl) rfl (by unfold SubDrawsValid RandSpec; decide)

/-- C10: for any game mode string outside the five recognised modes,
`generateProblemByMode` does not fail — its default branch silently
returns the addition problem, and the returned problem is tagged with
`sourceMode` equal to the unrecognised mode string, not
`"addition"`. -/
theorem unknown_mode_silently_defaults_to_addition
    (mode difficulty : String) (d : ModeDraws) (st : TwoRange)
    (hm1 : mode ≠ "addition") (hm2 : mode ≠ "subtraction")
    (hm3 : mode ≠ "threeNumber") (hm4 : mode ≠ "mixed")
    (hm5 : mode ≠ "counting")
    (hst : difficultySettings.addition difficulty = some st) :
    generateProblemByMode difficulty difficultySettings mode d =
      some { addProblemOf d.add with sourceMode := some mode } ∧
    some mode ≠ some "addition" := by
  constructor
  · simp only [generateProblemByMode]
    rw [if_neg hm1, if_neg hm2, if_neg hm3, if_neg hm4, if_neg hm5]
    simp [generateAdditionProblem, hst]
  · simpa using hm1

/-- Witness for C10 at the unrecognised mode `"division"`. -/
theorem unknown_mode_silently_defaults_to_addition_witness :
    generateProblemByMode "easy" difficultySettings "division"
      ⟨0, ⟨4, 5⟩, ⟨0, 0⟩, ⟨0, 0, 0, 0, 0, 0, 0, 0⟩, ⟨0, 0⟩, 0, 0, 0⟩ =
      some { addProblemOf ⟨4, 5⟩ with sourceMode := some "division" } ∧
    some "division" ≠ some "addition" :=
  unknown_mode_silently_defaults_to_addition "division" "easy"
    ⟨0, ⟨4, 5⟩, ⟨0, 0⟩, ⟨0, 0, 0, 0, 0, 0, 0, 0⟩, ⟨0, 0⟩, 0, 0, 0⟩
    ⟨1, 10, 1, 10⟩ (by decide) (by decide) (by decide) (by decide)
    (by decide) rfl

/-- The digit list produced by `Nat.toDigitsCore` for a positive input
starts with a nonzero digit character. -/
theorem toDigitsCore_head_ne_zero :
    ∀ (fuel n : ℕ) (ds : List Char), n ≠ 0 → n < fuel →
      ∃ c t, Nat.toDigitsCore 10 fuel n ds = c :: t ∧ c ≠ '0' := by
  intro fuel
  induction fuel with
  | zero => intro n ds h0 hf; exact absurd hf (Nat.not_lt_zero n)
  | succ fuel ih =>
    intro n ds h0 hf
    by_cases hq : n / 10 = 0
    · refine ⟨Nat.digitChar (n % 10), ds, ?_, ?_⟩
      · simp [Nat.toDigitsCore, hq]
      · have hlt : n < 10 := by omega
        have hm : n % 10 = n := Nat.mod_eq_of_lt hlt
        rw [hm]
        have h1 : 1 ≤ n := Nat.pos_of_ne_zero h0
        interval_cases n <;> decide
    · obtain ⟨c, t, hrec, hc⟩ :=
        ih (n / 10) (Nat.digitChar (n % 10) :: ds) hq (by omega)
      refine ⟨c, t, ?_, hc⟩
      simp [Nat.toDigitsCore, hq, hrec]

/-- The decimal numeral of a positive natural number has no leading
zero. -/
theorem natRepr_head_ne_zero (n : ℕ) (h : n ≠ 0) :
    (Nat.repr n).data.head? ≠ some '0' := by
  obtain ⟨c, t, he, hc⟩ :=
    toDigitsCore_head_ne_zero (n + 1) n [] h (Nat.lt_succ_self n)
  show (Nat.toDigits 10 n).head? ≠ some '0'
  rw [show Nat.toDigits 10 n = Nat.toDigitsCore 10 (n + 1) n [] from rfl, he]
  simp [hc]

/-- The padded seconds field always renders with exactly two digits. -/
theorem secondsField_length_two : ∀ r < 60, (secondsField r).length = 2 := by
  decide

/-- C8: `formatTime` is total on the integers: every negative input
renders as `"0:00"`, and every non-negative input renders in `M:SS`
form — the minutes part is the bare decimal numeral (so it carries no
leading zero) and the seconds part has exactly two digits; in
particular `formatTime 0 = "0:00"` and `formatTime 65 = "1:05"`. -/
theorem formatTime_total_mss :
    (∀ s : ℤ, s < 0 → formatTime s = "0:00") ∧
    formatTime 0 = "0:00" ∧ formatTime 65 = "1:05" ∧
    (∀ s : ℤ, 0 ≤ s →
      formatTime s = Nat.repr (s.toNat / 60) ++ ":" ++
        secondsField (s.toNat % 60) ∧
      (secondsField (s.toNat % 60)).length = 2 ∧
      (s.toNat / 60 ≠ 0 →
        (Nat.repr (s.toNat / 60)).data.head? ≠ some '0')) := by
  refine ⟨?_, by decide, by decide, ?_⟩
  · intro s hs
    unfold formatTime
    rw [if_pos hs]
  · intro s hs
    refine ⟨?_, secondsField_length_two _ (Nat.mod_lt _ (by norm_num)),
      fun h => natRepr_head_ne_zero _ h⟩
    unfold formatTime
    rw [if_neg (not_lt.mpr hs)]
    simp [secondsField, String.append_assoc]

/-- Witness for C8 at a negative and a positive concrete input. -/
theorem formatTime_total_mss_witness :
    formatTime (-5) = "0:00" ∧
    formatTime 125 = Nat.repr 2 ++ ":" ++ secondsField 5 :=
  ⟨formatTime_total_mss.1 (-5) (by decide),
   (formatTime_total_mss.2.2.2 125 (by decide)).1⟩

end MathApp
